import Mathlib

/-!
Shallow embedding of the Safesite dashboard client scripts
(src/main.js, the dashboard page script, and src/sup/main.js, the landing
page script). The scripts only read and write the text content of DOM
elements looked up by id, so the page state is modelled as a record of
optional strings: a field is `some s` when the element is present and
currently shows text `s`, and `none` when `document.getElementById`
returned `null`. Writing `el.textContent = s` to a `null` element throws a
TypeError; a write operation therefore returns `Except Dom Dom`, where the
error case is a thrown exception carrying the page state at the moment of
the throw (inside an async handler this becomes a rejected promise).

Network interaction is modelled by the outcome of the `fetch`/`res.json()`
pair: either the fetch rejects, or a response with some HTTP status code
arrives whose body may or may not parse as JSON. Field values reached by
property access are carried in their JS string-interpolated form; a missing
property reads as `undefined` and interpolates as the text "undefined".
-/

/-- Text content of the display elements used by the two scripts.
`none` means the element with that id is absent from the document. -/
structure Dom where
  aiStatus : Option String
  liveData : Option String
  temp : Option String
  gas : Option String
  helmet : Option String
  hr : Option String
  alerts : Option String
deriving DecidableEq

/-- JS string interpolation of a property that may be `undefined`:
a present property contributes its rendered text, a missing one the
literal text "undefined". -/
def jsStr (v : Option String) : String := v.getD "undefined"

/-- Parsed JSON body of a `/get_data` response, as seen through the three
property reads in src/main.js lines 31 to 34. A field is `none` when the
property is absent from the parsed value. Values are carried in their
string-interpolated form. -/
structure GetDataBody where
  temperature : Option String
  gas_level : Option String
  helmet_violations : Option String
deriving DecidableEq

/-- Outcome of `fetch("/get_data")` followed by `res.json()`:
either the fetch rejected (network error), or a response with HTTP status
`c` arrived whose body parses as JSON (`some body`) or fails to parse
(`none`, making `res.json()` reject). The code never reads the status
code, so a non-200 response with a JSON body flows like any other. -/
inductive FetchResult where
  | netError : FetchResult
  | resp : Nat → Option GetDataBody → FetchResult
deriving DecidableEq

/-- `liveData.textContent = ...` (src/main.js line 31): throws when the
element is absent. -/
def setLiveData (d : Dom) (s : String) : Except Dom Dom :=
  match d.liveData with
  | none => .error d
  | some _ => .ok { d with liveData := some s }

/-- `tempSpan.textContent = ...` (src/main.js line 32). -/
def setTemp (d : Dom) (s : String) : Except Dom Dom :=
  match d.temp with
  | none => .error d
  | some _ => .ok { d with temp := some s }

/-- `gasSpan.textContent = ...` (src/main.js line 33). -/
def setGas (d : Dom) (s : String) : Except Dom Dom :=
  match d.gas with
  | none => .error d
  | some _ => .ok { d with gas := some s }

/-- `helmetSpan.textContent = ...` (src/main.js line 34). -/
def setHelmet (d : Dom) (s : String) : Except Dom Dom :=
  match d.helmet with
  | none => .error d
  | some _ => .ok { d with helmet := some s }

/-- The placeholder text written by the catch block of `refreshData`. -/
def noLiveDataMsg : String := "No live data available."

/-- The template literal on src/main.js line 31. -/
def liveDataLine (r : GetDataBody) : String :=
  "🌡️ Temp: " ++ jsStr r.temperature ++ " °C | 🧪 Gas: " ++ jsStr r.gas_level
    ++ " ppm | ⛑️ Helmet Violations: " ++ jsStr r.helmet_violations

/-- The try block of `refreshData` (src/main.js lines 28 to 34): a fetch
rejection or a JSON parse failure throws before any DOM write; otherwise
the four elements are written in source order, each write throwing if its
element is absent, with earlier writes persisting. -/
def refreshTry (dom : Dom) (f : FetchResult) : Except Dom Dom :=
  match f with
  | .netError => .error dom
  | .resp _ none => .error dom
  | .resp _ (some r) => do
    let d1 ← setLiveData dom (liveDataLine r)
    let d2 ← setTemp d1 (jsStr r.temperature ++ " °C")
    let d3 ← setGas d2 (jsStr r.gas_level ++ " ppm")
    setHelmet d3 (jsStr r.helmet_violations)

/-- One invocation of `refreshData` (src/main.js lines 27 to 38) given the
outcome `f` of its network interaction. `.ok` is normal completion; the
`.error` case is the rejection of the async function (the catch block
itself threw writing to an absent liveData element). -/
def refreshData (dom : Dom) (f : FetchResult) : Except Dom Dom :=
  match refreshTry dom f with
  | .ok d => .ok d
  | .error d => setLiveData d noLiveDataMsg

/-- Page state after an invocation of `refreshData`, whether it completed
or its promise rejected: an unhandled rejection leaves the page (and the
interval timer) as they are. -/
def refreshDataDom (d : Dom) (f : FetchResult) : Dom :=
  match refreshData d f with
  | .ok e => e
  | .error e => e

/-- A fully populated page, used for concrete evaluations. -/
def domFull : Dom :=
  { aiStatus := some "idle", liveData := some "waiting", temp := some "old temp"
  , gas := some "old gas", helmet := some "old helmet"
  , hr := some "old hr", alerts := some "old alerts" }

/-- A concrete well-formed `/get_data` body. -/
def bodyEx : GetDataBody :=
  { temperature := some "36.2", gas_level := some "220", helmet_violations := some "2" }

example :
    refreshData domFull (.resp 200 (some bodyEx)) =
      .ok { domFull with
        liveData := some "🌡️ Temp: 36.2 °C | 🧪 Gas: 220 ppm | ⛑️ Helmet Violations: 2"
      , temp := some "36.2 °C", gas := some "220 ppm", helmet := some "2" } := rfl

example :
    refreshData domFull .netError = .ok { domFull with liveData := some noLiveDataMsg } := rfl

/-- Parsed JSON value inside a non-absent `data` property of a `/run_ai`
response body: the one property read from it is `helmet_violations`
(src/main.js line 16), carried in string-interpolated form, `none` when
absent. -/
structure RunAiData where
  helmet_violations : Option String
deriving DecidableEq

/-- Parsed JSON body of a `/run_ai` response. `status` is `some s` when the
`status` property is the string `s` (the code only compares it with
"success" using strict equality, so non-string values behave like `none`).
`data` is `none` when the `data` property is absent, in which case reading
`data.data.helmet_violations` throws. `message` is the interpolated form
of the `message` property. -/
structure RunAiBody where
  status : Option String
  data : Option RunAiData
  message : Option String
deriving DecidableEq

/-- Outcome of `fetch("/run_ai")` followed by `res.json()`, with the same
reading as `FetchResult`. -/
inductive RunAiResult where
  | netError : RunAiResult
  | resp : Nat → Option RunAiBody → RunAiResult
deriving DecidableEq

/-- `status.textContent = ...` in the click handler (src/main.js lines 11,
17, 19, 22): throws when the aiStatus element is absent. -/
def setAiStatus (d : Dom) (s : String) : Except Dom Dom :=
  match d.aiStatus with
  | none => .error d
  | some _ => .ok { d with aiStatus := some s }

/-- The busy text written synchronously on click (src/main.js line 11). -/
def busyMsg : String := "🚀 Running AI Detection..."

/-- The catch text of the click handler (src/main.js line 22). -/
def cannotConnectMsg : String := "⚠️ Cannot connect to backend."

/-- The try block of the click handler (src/main.js lines 12 to 20), run
from the page state `d0` that already shows the busy text: a fetch
rejection or JSON parse failure throws; on `status === "success"` with an
absent `data` property, `data.data.helmet_violations` throws; otherwise the
success or error text is written to the aiStatus element. -/
def runAiTry (f : RunAiResult) (d0 : Dom) : Except Dom Dom :=
  match f with
  | .netError => .error d0
  | .resp _ none => .error d0
  | .resp _ (some b) =>
    if b.status = some "success" then
      match b.data with
      | none => .error d0
      | some dd =>
        setAiStatus d0 ("✅ Detection Complete! Helmet Violations: " ++ jsStr dd.helmet_violations)
    else
      setAiStatus d0 ("❌ Error: " ++ jsStr b.message)

/-- The response-handling part of the click handler: the try block with its
catch (src/main.js lines 12 to 23). A throw inside the try is caught and the
cannot-connect text written; that write itself throws only if aiStatus is
absent, and then the rejection propagates. -/
def runAiResponse (f : RunAiResult) (d0 : Dom) : Except Dom Dom :=
  match runAiTry f d0 with
  | .ok d => .ok d
  | .error d => setAiStatus d cannotConnectMsg

/-- The whole click handler body (src/main.js lines 10 to 24): the busy
text is written synchronously, before the fetch outcome `f` is consumed;
this first write is outside the try, so its throw rejects the handler. -/
def runAiHandler (dom : Dom) (f : RunAiResult) : Except Dom Dom :=
  match setAiStatus dom busyMsg with
  | .ok d0 => runAiResponse f d0
  | .error d => .error d

/-- A click on the runAI button (src/main.js lines 9 to 25): the handler is
registered only when the button is present; with the button absent a click
reaches no listener and the page is untouched. -/
def clickRunAi (runBtnPresent : Bool) (dom : Dom) (f : RunAiResult) : Except Dom Dom :=
  if runBtnPresent then runAiHandler dom f else .ok dom

/-- The interval passed to `setInterval(refreshData, 5000)`
(src/main.js line 40), in milliseconds. -/
def intervalMs : Nat := 5000

/-- Modelled browser timer semantics of
`setInterval(refreshData, 5000); refreshData();` (src/main.js lines 40 to
41): invocation `0` is the immediate call at time `0`, and invocation
`k ≥ 1` is the `k`-th interval tick at time `k * intervalMs`. -/
def invocationTime (k : Nat) : Nat := k * intervalMs

/-- Number of `refreshData` invocations whose scheduled time is at most
`T` milliseconds after load: the immediate call plus one per elapsed
interval. -/
def invocationsByTime (T : Nat) : Nat := T / intervalMs + 1

/-- Page state after the first `n` invocations of the polling loop, where
`f k` is the network outcome of invocation `k`. Every invocation runs
`refreshData` unconditionally: a failed or rejected invocation does not
clear the interval timer. -/
def pollDom (f : Nat → FetchResult) (d : Dom) : Nat → Dom
  | 0 => d
  | n + 1 => refreshDataDom (pollDom f d n) (f n)

/-- The guard on src/sup/main.js line 27: the dashboard sim interval is
registered only when the hr, temp and alerts elements are all present at
load time. -/
def simEnabled (d : Dom) : Bool :=
  d.hr.isSome && d.temp.isSome && d.alerts.isSome

/-- The interval of the dashboard sim (src/sup/main.js line 35), in
milliseconds. -/
def simIntervalMs : Nat := 1800

/-- Time of the `m`-th dashboard sim tick: `setInterval(cb, 1800)` first
fires 1800 ms after load, so tick `m` (counting from 0) fires at
`(m + 1) * 1800`. -/
def simTickTime (m : Nat) : Nat := (m + 1) * simIntervalMs

/-- Index of the first dashboard sim tick strictly after polling
invocation `n`. -/
def nextSimTick (n : Nat) : Nat := invocationTime n / simIntervalMs

/-- One tick of the dashboard sim interval (src/sup/main.js lines 28 to
35), with `hrV`, `tempV` and `alertsV` the string-interpolated forms of the
three random draws. The closure captured the three elements non-null at
registration, so the writes always succeed. -/
def simTick (d : Dom) (hrV tempV alertsV : String) : Dom :=
  { d with hr := some (hrV ++ " bpm"), temp := some (tempV ++ " °C"), alerts := some alertsV }

/-- The simulated temperature before rounding (src/sup/main.js line 30):
`33 + Math.random() * 2`, with the draw `r` ranging over `[0, 1)`. -/
def simTempValue (r : ℚ) : ℚ := 33 + 2 * r

/-- A page with the aiStatus element absent. -/
def domNoAiStatus : Dom := { domFull with aiStatus := none }

/-- A page with every element absent. -/
def domNone : Dom :=
  { aiStatus := none, liveData := none, temp := none, gas := none
  , helmet := none, hr := none, alerts := none }

/-- A page with the gas element absent. -/
def domNoGas : Dom := { domFull with gas := none }

/-- Claim C1, counterexample: a non-200 response (HTTP 500) whose body
parses as JSON is rendered through the success path of refreshData; the
liveData text becomes the full data line, not "No live data available.",
because the code never inspects the HTTP status. -/
theorem refresh_non200_not_placeholder :
    refreshData domFull (.resp 500 (some bodyEx)) =
      .ok { domFull with
        liveData := some "🌡️ Temp: 36.2 °C | 🧪 Gas: 220 ppm | ⛑️ Helmet Violations: 2"
      , temp := some "36.2 °C", gas := some "220 ppm", helmet := some "2" } ∧
    ("🌡️ Temp: 36.2 °C | 🧪 Gas: 220 ppm | ⛑️ Helmet Violations: 2" : String) ≠ noLiveDataMsg :=
  ⟨rfl, by decide⟩

/-- Claim C1, amended: on every invocation of refreshData in which the
fetch rejects or the response body fails to parse as JSON, provided the
liveData element is present, the failure is caught and liveData becomes
exactly "No live data available."; no rejection propagates. A non-200
response with a parseable JSON body instead flows through the success
path. -/
theorem refresh_failure_placeholder (dom : Dom) (hl : dom.liveData.isSome)
    (f : FetchResult) (hf : f = .netError ∨ ∃ c, f = .resp c none) :
    refreshData dom f = .ok { dom with liveData := some noLiveDataMsg } := by
  obtain ⟨s, hs⟩ := Option.isSome_iff_exists.mp hl
  rcases hf with rfl | ⟨c, rfl⟩ <;>
    simp [refreshData, refreshTry, setLiveData, hs]

/-- Witness for the amended claim C1, at a fully populated page and a
rejected fetch. -/
theorem refresh_failure_placeholder_witness :
    refreshData domFull FetchResult.netError =
      .ok { domFull with liveData := some noLiveDataMsg } :=
  refresh_failure_placeholder domFull rfl FetchResult.netError (Or.inl rfl)

/-- Claim C2, counterexample: with the runAI button present but the
aiStatus element absent, a click throws at the busy-message write (the
write is outside the try block, so the handler rejects): the absence of
aiStatus is not silently tolerated. -/
theorem click_missing_aiStatus_throws :
    clickRunAi true domNoAiStatus RunAiResult.netError = .error domNoAiStatus := rfl

/-- Claim C2, amended: only the runAI button is null-checked, so its
absence silently disables the click feature and nothing throws; the other
lookups are unguarded: with aiStatus absent a click rejects at the busy
write, and with liveData absent a failing refreshData rejects inside its
catch block. -/
theorem absent_elements_amended (dom : Dom) (f : RunAiResult)
    (hs : dom.aiStatus = none) (hl : dom.liveData = none) :
    clickRunAi false dom f = .ok dom ∧
    clickRunAi true dom f = .error dom ∧
    refreshData dom FetchResult.netError = .error dom := by
  refine ⟨rfl, ?_, ?_⟩
  · simp [clickRunAi, runAiHandler, setAiStatus, hs]
  · simp [refreshData, refreshTry, setLiveData, hl]

/-- Witness for the amended claim C2, on the empty page. -/
theorem absent_elements_amended_witness :
    clickRunAi false domNone RunAiResult.netError = .ok domNone ∧
    clickRunAi true domNone RunAiResult.netError = .error domNone ∧
    refreshData domNone FetchResult.netError = .error domNone :=
  absent_elements_amended domNone RunAiResult.netError rfl rfl

/-- Claim C5, confirmed: for every valid SensorReading body received on a
successful poll with all display elements present, refreshData renders
temperature with the " °C" suffix, gas level with the " ppm" suffix, and
helmet violations bare, and writes the combined line to liveData. -/
theorem refresh_success_units (dom : Dom) (c : Nat) (tv gv hv : String)
    (h1 : dom.liveData.isSome) (h2 : dom.temp.isSome)
    (h3 : dom.gas.isSome) (h4 : dom.helmet.isSome) :
    refreshData dom (.resp c (some ⟨some tv, some gv, some hv⟩)) =
      .ok { dom with
        liveData := some ("🌡️ Temp: " ++ tv ++ " °C | 🧪 Gas: " ++ gv
          ++ " ppm | ⛑️ Helmet Violations: " ++ hv)
      , temp := some (tv ++ " °C"), gas := some (gv ++ " ppm"), helmet := some hv } := by
  obtain ⟨a, ha⟩ := Option.isSome_iff_exists.mp h1
  obtain ⟨b, hb⟩ := Option.isSome_iff_exists.mp h2
  obtain ⟨e, he⟩ := Option.isSome_iff_exists.mp h3
  obtain ⟨g, hg⟩ := Option.isSome_iff_exists.mp h4
  simp [refreshData, refreshTry, setLiveData, setTemp, setGas, setHelmet,
    liveDataLine, jsStr, Bind.bind, Except.bind, ha, hb, he, hg]

/-- Witness for claim C5, at a fully populated page and a concrete
reading. -/
theorem refresh_success_units_witness :
    refreshData domFull (FetchResult.resp 200 (some ⟨some "36.2", some "220", some "2"⟩)) =
      .ok { domFull with
        liveData := some ("🌡️ Temp: " ++ "36.2" ++ " °C | 🧪 Gas: " ++ "220"
          ++ " ppm | ⛑️ Helmet Violations: " ++ "2")
      , temp := some ("36.2" ++ " °C"), gas := some ("220" ++ " ppm"), helmet := some "2" } :=
  refresh_success_units domFull 200 "36.2" "220" "2" rfl rfl rfl rfl

/-- Claim C6, counterexample: an invocation of refreshData that fails
midway through rendering (here because the gas element is absent) ends in
the catch block showing the placeholder, yet has already written the temp
element: on this failing invocation a secondary element does not retain
its prior text. -/
theorem refresh_failure_writes_secondary :
    refreshData domNoGas (.resp 200 (some bodyEx)) =
      .ok { domNoGas with liveData := some noLiveDataMsg, temp := some "36.2 °C" } ∧
    some ("36.2 °C" : String) ≠ domNoGas.temp :=
  ⟨rfl, by decide⟩

/-- Claim C6, amended: on every invocation of refreshData failing because
the fetch rejected or the body failed to parse as JSON (so the catch is
reached before any rendering), with the liveData element present, only
liveData is written: it becomes the placeholder and temp, gas and helmet
retain their prior text. An invocation failing midway through rendering
may already have written secondary elements. -/
theorem refresh_fetch_failure_frame (dom : Dom) (hl : dom.liveData.isSome)
    (f : FetchResult) (hf : f = .netError ∨ ∃ c, f = .resp c none) (d : Dom)
    (hres : refreshData dom f = .ok d) :
    d.liveData = some noLiveDataMsg ∧ d.temp = dom.temp ∧
      d.gas = dom.gas ∧ d.helmet = dom.helmet := by
  obtain ⟨s, hs⟩ := Option.isSome_iff_exists.mp hl
  rcases hf with rfl | ⟨c, rfl⟩ <;>
  · simp [refreshData, refreshTry, setLiveData, hs] at hres
    simp [← hres]

/-- Witness for the amended claim C6, at a fully populated page and a
rejected fetch. -/
theorem refresh_fetch_failure_frame_witness :
    ({ domFull with liveData := some noLiveDataMsg } : Dom).liveData = some noLiveDataMsg ∧
    ({ domFull with liveData := some noLiveDataMsg } : Dom).temp = domFull.temp ∧
    ({ domFull with liveData := some noLiveDataMsg } : Dom).gas = domFull.gas ∧
    ({ domFull with liveData := some noLiveDataMsg } : Dom).helmet = domFull.helmet :=
  refresh_fetch_failure_frame domFull rfl FetchResult.netError (Or.inl rfl) _ rfl

/-- A concrete successful `/run_ai` body carrying three violations. -/
def bodySuccess : RunAiBody :=
  { status := some "success", data := some ⟨some "3"⟩, message := none }

/-- A concrete `/run_ai` error body. -/
def bodyError : RunAiBody :=
  { status := some "error", data := none, message := some "camera offline" }

/-- A concrete `/run_ai` body with success status but no data object. -/
def bodyNoData : RunAiBody :=
  { status := some "success", data := none, message := some "oops" }

/-- Claim C3, confirmed: with the aiStatus element present, a response
body with status "success" and a data object carrying `n` violations sets
the status text to the success message with the literal count; a body
whose status is not "success" sets it to the error message built from the
message property; a rejected fetch sets it to exactly
"⚠️ Cannot connect to backend.". -/
theorem runai_response_messages (dom : Dom) (hA : dom.aiStatus.isSome)
    (c : Nat) (b : RunAiBody) (n m : String) :
    (b.status = some "success" → b.data = some ⟨some n⟩ →
      clickRunAi true dom (.resp c (some b)) =
        .ok { dom with aiStatus := some ("✅ Detection Complete! Helmet Violations: " ++ n) }) ∧
    (b.status ≠ some "success" → b.message = some m →
      clickRunAi true dom (.resp c (some b)) =
        .ok { dom with aiStatus := some ("❌ Error: " ++ m) }) ∧
    clickRunAi true dom RunAiResult.netError =
      .ok { dom with aiStatus := some cannotConnectMsg } := by
  obtain ⟨s, hs⟩ := Option.isSome_iff_exists.mp hA
  refine ⟨?_, ?_, ?_⟩
  · intro h1 h2
    simp [clickRunAi, runAiHandler, runAiResponse, runAiTry, setAiStatus, hs, h1, h2, jsStr]
  · intro h1 h2
    simp [clickRunAi, runAiHandler, runAiResponse, runAiTry, setAiStatus, hs, h1, h2, jsStr]
  · simp [clickRunAi, runAiHandler, runAiResponse, runAiTry, setAiStatus, hs]

/-- Witness for claim C3: the success case at a fully populated page and
a concrete body with three violations. -/
theorem runai_response_messages_witness :
    clickRunAi true domFull (RunAiResult.resp 200 (some bodySuccess)) =
      .ok { domFull with
        aiStatus := some ("✅ Detection Complete! Helmet Violations: " ++ "3") } :=
  (runai_response_messages domFull rfl 200 bodySuccess "3" "x").1 rfl rfl

/-- Claim C4, confirmed: the polling loop uses an interval of exactly
5000 ms, its invocation 0 is immediate (time 0, before the first tick),
consecutive invocations are one interval apart, at least the floor of
T / intervalMs requests are issued by time T, and every invocation runs
refreshData regardless of any earlier outcome: no failure stops or slows
the polling. -/
theorem startPolling_schedule (T n k : Nat) (f : Nat → FetchResult) (d : Dom) :
    intervalMs = 5000 ∧
    invocationTime 0 = 0 ∧
    invocationTime (k + 1) = invocationTime k + intervalMs ∧
    invocationsByTime T ≥ T / intervalMs ∧
    pollDom f d (n + 1) = refreshDataDom (pollDom f d n) (f n) := by
  refine ⟨rfl, rfl, ?_, ?_, rfl⟩
  · simp [invocationTime, Nat.succ_mul]
  · exact Nat.le_succ _

/-- Claim C7, confirmed: a click writes the busy text
"🚀 Running AI Detection..." synchronously, before the fetch outcome is
consumed: the handler factors through the page state already showing the
busy text, and the remaining response handling is what later replaces it
with the outcome message. -/
theorem click_busy_before_response (dom : Dom) (s : String)
    (hA : dom.aiStatus = some s) (f : RunAiResult) :
    setAiStatus dom busyMsg = .ok { dom with aiStatus := some busyMsg } ∧
    ({ dom with aiStatus := some busyMsg } : Dom).aiStatus = some "🚀 Running AI Detection..." ∧
    clickRunAi true dom f = runAiResponse f { dom with aiStatus := some busyMsg } := by
  refine ⟨?_, rfl, ?_⟩
  · simp [setAiStatus, hA]
  · simp [clickRunAi, runAiHandler, setAiStatus, hA]

/-- Witness for claim C7, at a fully populated page and a rejected
fetch. -/
theorem click_busy_before_response_witness :
    setAiStatus domFull busyMsg = .ok { domFull with aiStatus := some busyMsg } ∧
    ({ domFull with aiStatus := some busyMsg } : Dom).aiStatus = some "🚀 Running AI Detection..." ∧
    clickRunAi true domFull RunAiResult.netError =
      runAiResponse RunAiResult.netError { domFull with aiStatus := some busyMsg } :=
  click_busy_before_response domFull "idle" rfl RunAiResult.netError

/-- Claim C8, confirmed: on a page where hr, temp and alerts are all
present, the dashboard sim interval is registered; each of its ticks
(every 1800 ms) overwrites the temp element with the simulated value
suffixed " °C"; strictly between any two consecutive polling invocations
there is a sim tick, so a temperature rendered by a successful poll does
not persist until the next poll; and the simulated value 33 + 2r lies in
[33, 35) for every draw r in [0, 1). -/
theorem sim_overwrites_polled_temp (d : Dom)
    (h1 : d.hr.isSome) (h2 : d.temp.isSome) (h3 : d.alerts.isSome)
    (hrV tempV alertsV : String) (n : Nat) (r : ℚ) (hr0 : 0 ≤ r) (hr1 : r < 1) :
    simEnabled d = true ∧
    simIntervalMs = 1800 ∧
    (simTick d hrV tempV alertsV).temp = some (tempV ++ " °C") ∧
    invocationTime n < simTickTime (nextSimTick n) ∧
    simTickTime (nextSimTick n) < invocationTime (n + 1) ∧
    33 ≤ simTempValue r ∧ simTempValue r < 35 := by
  refine ⟨?_, rfl, rfl, ?_, ?_, ?_, ?_⟩
  · simp [simEnabled, h1, h2, h3]
  · simp only [invocationTime, simTickTime, nextSimTick, intervalMs, simIntervalMs]
    omega
  · simp only [invocationTime, simTickTime, nextSimTick, intervalMs, simIntervalMs]
    omega
  · simp [simTempValue]; linarith
  · simp [simTempValue]; linarith

/-- Witness for claim C8, at a fully populated page, concrete draws, the
first polling gap, and the draw r = 1/2. -/
theorem sim_overwrites_polled_temp_witness :
    simEnabled domFull = true ∧
    simIntervalMs = 1800 ∧
    (simTick domFull "82" "34.1" "1").temp = some ("34.1" ++ " °C") ∧
    invocationTime 0 < simTickTime (nextSimTick 0) ∧
    simTickTime (nextSimTick 0) < invocationTime (0 + 1) ∧
    33 ≤ simTempValue (1 / 2) ∧ simTempValue (1 / 2) < 35 :=
  sim_overwrites_polled_temp domFull rfl rfl rfl "82" "34.1" "1" 0 (1 / 2)
    (by norm_num) (by norm_num)

/-- Claim C9, confirmed: with the aiStatus element present, a response
body with status "success" but no data object makes the property chain
data.data.helmet_violations throw inside the try block, so the catch runs
and the status text becomes the network-failure message
"⚠️ Cannot connect to backend." even though a response was received. -/
theorem runai_success_without_data (dom : Dom) (hA : dom.aiStatus.isSome)
    (c : Nat) (b : RunAiBody) (hs : b.status = some "success") (hd : b.data = none) :
    clickRunAi true dom (.resp c (some b)) =
      .ok { dom with aiStatus := some cannotConnectMsg } := by
  obtain ⟨s, hsome⟩ := Option.isSome_iff_exists.mp hA
  simp [clickRunAi, runAiHandler, runAiResponse, runAiTry, setAiStatus, hsome, hs, hd]

/-- Witness for claim C9, at a fully populated page and a concrete
data-less success body. -/
theorem runai_success_without_data_witness :
    clickRunAi true domFull (RunAiResult.resp 200 (some bodyNoData)) =
      .ok { domFull with aiStatus := some cannotConnectMsg } :=
  runai_success_without_data domFull rfl 200 bodyNoData rfl rfl

/-- Claim C10, confirmed: rendering is deterministic and idempotent: for
every parsed response body, running refreshData a second time on the same
body from the state the first run produced changes nothing, so the same
reading yields the same displayed text in every element both times. The
statement holds for every page, elements present or not. -/
theorem refresh_render_idempotent (d : Dom) (c : Nat) (r : GetDataBody) :
    refreshDataDom (refreshDataDom d (.resp c (some r))) (.resp c (some r)) =
      refreshDataDom d (.resp c (some r)) := by
  rcases hl : d.liveData with _ | a <;>
  rcases ht : d.temp with _ | b <;>
  rcases hg : d.gas with _ | e <;>
  rcases hh : d.helmet with _ | g <;>
  simp [refreshDataDom, refreshData, refreshTry, setLiveData, setTemp, setGas, setHelmet,
    Bind.bind, Except.bind, hl, ht, hg, hh]
